/-
Verification of the obsidian-telegram-sync plugin (src/unnamed/part_000, TypeScript).

Shallow embedding: the plugin's pure computations (template rendering, message
classification, note rendering, folder-path provisioning, settings merge,
command-trigger matching) are translated to executable Lean definitions; the
stateful bot lifecycle (startBot / stopBot) is modelled by explicit state
passing over a small system state, with the external transport's close/ensure
failures supplied as parameters.

JavaScript conventions modelled explicitly:
  * optional fields are `Option`;
  * string truthiness: the empty string is falsy (`truthyStr`);
  * `a || b` on strings is `jsOr`;
  * `Object.assign` is a shallow per-key merge (see `loadSettings`).
-/
import Mathlib

/-! ## JavaScript value conventions -/

/-- Truthiness of an optional JS string: `undefined` and `""` are falsy. -/
def truthyStr : Option String → Bool
  | none => false
  | some s => s ≠ ""

/-- JS `a || b` for an optional string `a` and a string default `b`:
the default is taken when `a` is `undefined` or the (falsy) empty string. -/
def jsOr (a : Option String) (b : String) : String :=
  match a with
  | none => b
  | some s => if s = "" then b else s

/-! ## Data model: the `TelegramMessage` interface (source lines 5-41) -/

/-- `msg.from` (the source field is named `from`, a Lean keyword). -/
structure MsgFrom where
  id : Nat
  first_name : Option String
  last_name : Option String
  username : Option String
  deriving DecidableEq

structure MsgChat where
  id : Nat
  type : String
  title : Option String
  username : Option String
  deriving DecidableEq

structure MsgDocument where
  file_name : Option String
  deriving DecidableEq

structure MsgAudio where
  title : Option String
  duration : Option Nat
  deriving DecidableEq

structure MsgVoice where
  duration : Nat
  deriving DecidableEq

structure MsgSticker where
  emoji : Option String
  deriving DecidableEq

/-- Coordinates are JS numbers; their exact floating-point rendering is outside
the claims under study, so they are embedded as integers. -/
structure MsgLocation where
  latitude : Int
  longitude : Int
  deriving DecidableEq

/-- The inbound message shape.  `photo` is an array whose elements are never
read (only its presence matters, and a present array — even empty — is truthy);
`video` is `any`, also only tested for presence. -/
structure TelegramMessage where
  message_id : Nat
  fromUser : Option MsgFrom
  chat : MsgChat
  date : Nat
  text : Option String
  caption : Option String
  photo : Option (List Unit)
  document : Option MsgDocument
  audio : Option MsgAudio
  voice : Option MsgVoice
  video : Option Unit
  sticker : Option MsgSticker
  location : Option MsgLocation
  deriving DecidableEq

/-! ## Template engine: `processTemplate` (source lines 210-212)

`template.replace(/\{\{(\w+)\}\}/g, (match, key) => variables[key] || match)`

A global regex replace scans the subject left to right, replacing each
non-overlapping match of `{{` (word char)+ `}}` via the callback and copying
every other character verbatim.  Because `}` is not a word character the greedy
`\w+` never backtracks, so the scan is: at a `{`, try to read `{ (word+) } }`
after it; on success emit a marker token and resume after the match, otherwise
emit the `{` literally and resume at the next character.

The callback reads `variables[key]` with JS bracket access on a plain object
literal, which falls back to the **prototype chain** when `key` is not an own
key: for the `Object.prototype` member names (`constructor`, `toString`, …,
all of which match `\w+`) the read yields the truthy inherited member, the
`|| match` test passes, and `replace` substitutes the engine's stringification
of that member.  So the callback returns: the own entry when it is truthy
(present and non-empty); else, for an absent own key that names an
`Object.prototype` member, that member's (engine-dependent) string rendering;
else the whole matched text `match`. -/

/-- JS regex `\w`: ASCII letters, digits and underscore. -/
def isWordChar (c : Char) : Bool := c.isAlphanum || c = '_'

/-- One lexical unit of a template: a literal character or a `\x7b\x7bname\x7d\x7d` marker. -/
inductive Tok where
  | lit (c : Char)
  | marker (name : List Char)
  deriving DecidableEq

/-- After an initial `\x7b`, try to read `\x7b (word+) \x7d\x7d`; return the identifier
and the remainder after the closing braces. -/
def tryMarker : List Char → Option (List Char × List Char)
  | [] => none
  | c :: r2 =>
    if c = '\x7b' then
      if (r2.takeWhile isWordChar).isEmpty then none
      else if (r2.dropWhile isWordChar).take 2 = ['\x7d', '\x7d'] then
        some (r2.takeWhile isWordChar, (r2.dropWhile isWordChar).drop 2)
      else none
    else none

/-- Fuel-indexed scanner (fuel ≥ input length suffices; each step consumes at
least one character). -/
def tokenizeF : Nat → List Char → List Tok
  | 0, _ => []
  | _ + 1, [] => []
  | fuel + 1, c :: rest =>
    if c = '\x7b' then
      match tryMarker rest with
      | some (ws, tail) => Tok.marker ws :: tokenizeF fuel tail
      | none => Tok.lit c :: tokenizeF fuel rest
    else Tok.lit c :: tokenizeF fuel rest

/-- Split a character list into literal and marker tokens, exactly following
the global-regex scan of `/\{\{(\w+)\}\}/g`. -/
def tokenize (l : List Char) : List Tok := tokenizeF l.length l

/-- The verbatim text of a token (for a marker, the full matched `match` text). -/
def detok : Tok → List Char
  | Tok.lit c => [c]
  | Tok.marker ws => '\x7b' :: '\x7b' :: (ws ++ ['\x7d', '\x7d'])

/-- Lookup of an **own** key in the `variables` record (association list). -/
def lookupVar (key : String) : List (String × String) → Option String
  | [] => none
  | (k, v) :: rest => if k = key then some v else lookupVar key rest

/-- The enumerable-or-not own member names of `Object.prototype`, inherited by
every plain object literal.  Reading any of them on `\x7ball: own, keys\x7d` with an
absent own key yields a truthy value (a function, or `Object.prototype` itself
for the `__proto__` accessor).  Every one of these names matches `\w+`. -/
def protoKeys : List String :=
  ["constructor", "hasOwnProperty", "isPrototypeOf", "propertyIsEnumerable",
   "toLocaleString", "toString", "valueOf", "__proto__", "__defineGetter__",
   "__defineSetter__", "__lookupGetter__", "__lookupSetter__"]

/-- The replacement callback `(match, key) => variables[key] || match`.
An own entry shadows the prototype; a present but empty own entry is falsy, so
the whole matched text is kept; an absent own key that names an
`Object.prototype` member reads the truthy inherited member, and `replace`
substitutes its stringification — engine-dependent, supplied as `protoRender`;
any other absent key reads `undefined` and keeps the matched text. -/
def renderTok (protoRender : String → String) (vars : List (String × String)) :
    Tok → List Char
  | Tok.lit c => [c]
  | Tok.marker ws =>
    match lookupVar (String.mk ws) vars with
    | some v => if v = "" then detok (Tok.marker ws) else v.data
    | none =>
      if String.mk ws ∈ protoKeys then (protoRender (String.mk ws)).data
      else detok (Tok.marker ws)

/-- Source lines 210-212; `protoRender` models the host engine's
stringification of a member inherited from `Object.prototype`. -/
def processTemplate (protoRender : String → String) (template : String)
    (vars : List (String × String)) : String :=
  String.mk (((tokenize template.data).map (renderTok protoRender vars)).flatten)

example : processTemplate (fun _ => "") "## Message\n\n\x7b\x7btext\x7d\x7d" [("text", "hello")] = "## Message\n\nhello" := by decide

example : processTemplate (fun _ => "") "a\x7b\x7bx\x7d\x7db" [] = "a\x7b\x7bx\x7d\x7db" := by decide

example : processTemplate (fun _ => "") "\x7b\x7b\x7bx\x7d\x7d\x7d" [("x", "Y")] = "\x7bY\x7d" := by decide

example : processTemplate (fun k => "[" ++ k ++ "]") "\x7b\x7btoString\x7d\x7d" [] = "[toString]" := by decide

/-! ## Settings (source lines 43-81) -/

structure Templates where
  titleTemplate : String
  metadataTemplate : String
  textMessageTemplate : String
  photoTemplate : String
  documentTemplate : String
  audioTemplate : String
  voiceTemplate : String
  videoTemplate : String
  stickerTemplate : String
  locationTemplate : String
  unknownTemplate : String
  deriving DecidableEq

structure TelegramSyncSettings where
  botToken : String
  folderPath : String
  includeMetadata : Bool
  supportCommands : Bool
  templates : Templates
  deriving DecidableEq

/-- Source lines 63-81 (template braces written with their escapes). -/
def DEFAULT_SETTINGS : TelegramSyncSettings :=
  { botToken := ""
    folderPath := "Telegram"
    includeMetadata := true
    supportCommands := true
    templates :=
      { titleTemplate := "# Telegram Message"
        metadataTemplate := "- **From**: \x7b\x7bfrom\x7d\x7d\n- **Date**: \x7b\x7bdate\x7d\x7d\n- **Chat**: \x7b\x7bchat\x7d\x7d"
        textMessageTemplate := "## Message\n\n\x7b\x7btext\x7d\x7d"
        photoTemplate := "## Photo\n\n*[Photo message received]*\n\nCaption: \x7b\x7bcaption\x7d\x7d"
        documentTemplate := "## Document\n\n*[Document received]*\n\nFilename: \x7b\x7bfilename\x7d\x7d"
        audioTemplate := "## Audio\n\n*[Audio message received]*\n\nTitle: \x7b\x7btitle\x7d\x7d"
        voiceTemplate := "## Voice Message\n\n*[Voice message received]*\n\nDuration: \x7b\x7bduration\x7d\x7d seconds"
        videoTemplate := "## Video\n\n*[Video message received]*\n\nCaption: \x7b\x7bcaption\x7d\x7d"
        stickerTemplate := "## Sticker\n\n*[Sticker received]*\n\nEmoji: \x7b\x7bemoji\x7d\x7d"
        locationTemplate := "## Location\n\n*[Location shared]*\n\nLatitude: \x7b\x7blatitude\x7d\x7d\nLongitude: \x7b\x7blongitude\x7d\x7d"
        unknownTemplate := "## Unknown Message Type\n\n*[Unsupported message type received]*" } }

/-! ## Timestamp formatting (source lines 216-218)

`new Date(msg.date * 1000).toISOString().replace(/[:.]/g, '-').slice(0, 19)`

`Date.prototype.toISOString` renders the UTC civil date-time as
`YYYY-MM-DDTHH:MM:SS.mmmZ`.  The civil date is recovered from the day count
with the standard Gregorian era decomposition (here for dates on or after
1970-01-01, so all arithmetic stays in `Nat`). -/

/-- Gregorian (year, month, day) from days since 1970-01-01. -/
def civilFromDays (days : Nat) : Nat × Nat × Nat :=
  let z := days + 719468
  let era := z / 146097
  let doe := z % 146097
  let yoe := (doe - doe / 1460 + doe / 36524 - doe / 146096) / 365
  let y := yoe + era * 400
  let doy := doe - (365 * yoe + yoe / 4 - yoe / 100)
  let mp := (5 * doy + 2) / 153
  let d := doy - (153 * mp + 2) / 5 + 1
  let m := if mp < 10 then mp + 3 else mp - 9
  (if m ≤ 2 then y + 1 else y, m, d)

def pad2 (n : Nat) : String := if n < 10 then "0" ++ toString n else toString n

def pad4 (n : Nat) : String :=
  if n < 10 then "000" ++ toString n
  else if n < 100 then "00" ++ toString n
  else if n < 1000 then "0" ++ toString n
  else toString n

/-- `toISOString()` of the instant `secs * 1000` milliseconds after the epoch. -/
def isoString (secs : Nat) : String :=
  let days := secs / 86400
  let rem := secs % 86400
  let ymd := civilFromDays days
  pad4 ymd.1 ++ "-" ++ pad2 ymd.2.1 ++ "-" ++ pad2 ymd.2.2 ++ "T" ++
    pad2 (rem / 3600) ++ ":" ++ pad2 (rem % 3600 / 60) ++ ":" ++ pad2 (rem % 60) ++ ".000Z"

/-- `.replace(/[:.]/g, '-')` on a single character. -/
def dashChar (c : Char) : Char := if c = ':' ∨ c = '.' then '-' else c

/-- Source line 217: the formatted date used in the note's file name. -/
def formattedDate (secs : Nat) : String :=
  String.mk (((isoString secs).data.map dashChar).take 19)

example : formattedDate 0 = "1970-01-01T00-00-00" := by decide

example : formattedDate 951827696 = "2000-02-29T12-34-56" := by decide

example : formattedDate 1710000000 = "2024-03-09T16-00-00" := by decide

/-! ## Message classification and note content (source lines 214-276) -/

/-- The nine content kinds, in the priority order of the `if`/`else if` chain. -/
inductive MsgKind where
  | text | photo | document | audio | voice | video | sticker | location | unknown
  deriving DecidableEq

/-- The branch taken by the `if`/`else if` chain of `processMessage`
(source lines 237-272): the first truthy content field, else `unknown`.
A string field is truthy when present and non-empty; the object/array fields
are truthy exactly when present. -/
def classify (m : TelegramMessage) : MsgKind :=
  if truthyStr m.text then .text
  else if m.photo.isSome then .photo
  else if m.document.isSome then .document
  else if m.audio.isSome then .audio
  else if m.voice.isSome then .voice
  else if m.video.isSome then .video
  else if m.sticker.isSome then .sticker
  else if m.location.isSome then .location
  else .unknown

/-- The content chunk appended by the `if`/`else if` chain (source lines
237-272), with each branch's variable record built exactly as in the source
(`pr` is the engine's `Object.prototype` member stringification, threaded to
the template engine). -/
def contentBody (pr : String → String) (t : Templates) (m : TelegramMessage) : String :=
  if truthyStr m.text then
    processTemplate pr t.textMessageTemplate [("text", m.text.getD "")]
  else if m.photo.isSome then
    processTemplate pr t.photoTemplate [("caption", jsOr m.caption "No caption")]
  else if m.document.isSome then
    processTemplate pr t.documentTemplate
      [("filename", jsOr ((m.document.getD ⟨none⟩).file_name) "Unknown")]
  else if m.audio.isSome then
    processTemplate pr t.audioTemplate
      [("title", jsOr ((m.audio.getD ⟨none, none⟩).title) "Unknown")]
  else if m.voice.isSome then
    processTemplate pr t.voiceTemplate
      [("duration", toString ((m.voice.getD ⟨0⟩).duration))]
  else if m.video.isSome then
    processTemplate pr t.videoTemplate [("caption", jsOr m.caption "No caption")]
  else if m.sticker.isSome then
    processTemplate pr t.stickerTemplate
      [("emoji", jsOr ((m.sticker.getD ⟨none⟩).emoji) "No emoji")]
  else if m.location.isSome then
    processTemplate pr t.locationTemplate
      [("latitude", toString ((m.location.getD ⟨0, 0⟩).latitude)),
       ("longitude", toString ((m.location.getD ⟨0, 0⟩).longitude))]
  else
    processTemplate pr t.unknownTemplate []

/-- Source line 225: `${first_name || ''} ${last_name || ''} ${username ? `(@${username})` : ''}`. -/
def fromName (m : TelegramMessage) : String :=
  jsOr (m.fromUser.bind MsgFrom.first_name) "" ++ " " ++
    jsOr (m.fromUser.bind MsgFrom.last_name) "" ++ " " ++
    (match m.fromUser.bind MsgFrom.username with
     | some u => if u = "" then "" else "(@" ++ u ++ ")"
     | none => "")

/-- Source line 226: `msg.chat.title || msg.chat.username || 'Private Chat'`. -/
def chatName (m : TelegramMessage) : String :=
  jsOr m.chat.title (jsOr m.chat.username "Private Chat")

/-- Source lines 214-276, as a pure function from the message (and settings) to
the pair (file name, note content) handed to `vault.create`.
`pr` is the engine's `Object.prototype` member stringification (see
`processTemplate`); `localeRender` stands for the host-locale dependent
`timestamp.toLocaleString()`; it receives `msg.date`. -/
def processMessage (pr : String → String) (localeRender : Nat → String)
    (s : TelegramSyncSettings) (m : TelegramMessage) : String × String :=
  let fileName := s.folderPath ++ "/" ++ formattedDate m.date ++ "-" ++
    toString m.message_id ++ ".md"
  let metaPart :=
    if s.includeMetadata then
      processTemplate pr s.templates.titleTemplate [] ++ "\n\n" ++
        processTemplate pr s.templates.metadataTemplate
          [("from", fromName m), ("date", localeRender m.date), ("chat", chatName m)] ++
        "\n\n"
    else ""
  (fileName, metaPart ++ contentBody pr s.templates m)

/-! ## Folder provisioner: `ensureFolderExists` (source lines 278-297)

The vault's directory state is modelled as the list of existing paths;
`adapter.exists` is membership and `createFolder` appends (the external vault
collaborator is assumed to succeed, the failure path only rethrows).  The
function returns the new vault state together with the list of paths passed to
`createFolder`, in order. -/

/-- JS `str.split('/')` over the character list (keeps empty segments, as JS
does for leading, trailing and doubled separators). -/
def splitSlash : List Char → List (List Char)
  | [] => [[]]
  | c :: rest =>
    let r := splitSlash rest
    if c = '/' then [] :: r else (c :: r.headD []) :: r.tail

/-- The loop of `ensureFolderExists`: walk the remaining segments, keeping the
accumulated `currentPath` (already ending in `/` after each step). -/
def ensureGo (vault : List String) (currentPath : String) :
    List String → List String × List String
  | [] => (vault, [])
  | folder :: rest =>
    let cur := currentPath ++ folder
    let vault2 := if cur ∈ vault then vault else vault ++ [cur]
    let created := if cur ∈ vault then ([] : List String) else [cur]
    let next := ensureGo vault2 (cur ++ "/") rest
    (next.1, created ++ next.2)

/-- Source lines 278-297: `folderPath.split('/').filter(p => p.length > 0)`,
then the prefix walk. -/
def ensureFolderExists (vault : List String) (folderPath : String) :
    List String × List String :=
  ensureGo vault ""
    (((splitSlash folderPath.data).map String.mk).filter (fun p => p ≠ ""))

example : ensureFolderExists [] "a/b" = (["a", "a/b"], ["a", "a/b"]) := by decide

example : ensureFolderExists ["a"] "a//b/" = (["a", "a/b"], ["a/b"]) := by decide

/-! ## Bot lifecycle: `startBot` / `stopBot` (source lines 114-164)

System state: the plugin's `bot` field (`Option` of a connection id), the set
of live (opened, not successfully closed) connections, a fresh-id counter and
the list of notices shown to the user.  External outcomes are parameters:
`closeErr` is `some e` when `bot.stopPolling()` rejects with message `e`, and
`ensureErr` is `some e` when `ensureFolderExists` throws `e` during `startBot`
(any other vault interaction is outside these claims). -/

structure SysState where
  bot : Option Nat
  live : List Nat
  nextId : Nat
  notices : List String
  deriving DecidableEq

inductive SessionState where
  | Running | Stopped
  deriving DecidableEq

/-- The session state named by the spec: `Running` iff the `bot` field is set. -/
def sessionState (s : SysState) : SessionState :=
  if s.bot.isSome then .Running else .Stopped

/-- Source lines 153-164.  `this.bot = null` executes only after
`stopPolling()` resolves; when it rejects, the `catch` block reports the error
and leaves `this.bot` (and the still-unclosed connection) untouched. -/
def stopBot (closeErr : Option String) (s : SysState) : SysState :=
  match s.bot with
  | none => s
  | some b =>
    match closeErr with
    | some e => { s with notices := s.notices ++ ["Error stopping bot: " ++ e] }
    | none =>
      { s with bot := none, live := s.live.filter (fun c => c ≠ b),
               notices := s.notices ++ ["Telegram bot stopped"] }

/-- Source lines 114-151.  The whole body is inside `try`: first
`await this.stopBot()` (which never throws), then the token guard (an early
`return`, not an error), then `ensureFolderExists` (its failure is caught at
line 146, which notices and sets `this.bot = null`), then
`new TelegramBot(..., {polling: true})` opens a fresh connection stored in
`this.bot`. -/
def startBot (closeErr ensureErr : Option String) (settings : TelegramSyncSettings)
    (s : SysState) : SysState :=
  let s1 := stopBot closeErr s
  if settings.botToken = "" then
    { s1 with notices := s1.notices ++
        ["Telegram bot token is not set. Please configure it in settings."] }
  else
    match ensureErr with
    | some e =>
      { s1 with bot := none,
                notices := s1.notices ++ ["Failed to start Telegram bot: " ++ e] }
    | none =>
      { s1 with bot := some s1.nextId, live := s1.nextId :: s1.live,
                nextId := s1.nextId + 1,
                notices := s1.notices ++ ["Telegram bot started successfully"] }

/-! ## Settings persistence: `loadSettings` (source lines 299-301)

`this.settings = Object.assign({}, DEFAULT_SETTINGS, await this.loadData())`

The stored blob may lack any key (modelled with `Option` per key, `none` for an
absent key; a wholly missing blob is the all-`none` record).  `Object.assign`
copies own keys of the later object over the earlier one — one level deep, so
a stored `templates` object replaces the default `templates` object wholesale,
and a template role missing from the stored object stays missing in the
result. -/

/-- A persisted `templates` object: any role may be absent. -/
structure StoredTemplates where
  titleTemplate : Option String
  metadataTemplate : Option String
  textMessageTemplate : Option String
  photoTemplate : Option String
  documentTemplate : Option String
  audioTemplate : Option String
  voiceTemplate : Option String
  videoTemplate : Option String
  stickerTemplate : Option String
  locationTemplate : Option String
  unknownTemplate : Option String
  deriving DecidableEq

/-- A persisted settings blob: any top-level key may be absent. -/
structure StoredSettings where
  botToken : Option String
  folderPath : Option String
  includeMetadata : Option Bool
  supportCommands : Option Bool
  templates : Option StoredTemplates
  deriving DecidableEq

/-- The result of the shallow merge: top-level keys are always present, but
the `templates` object — taken wholesale from the stored blob when present —
may still lack individual roles. -/
structure MergedSettings where
  botToken : String
  folderPath : String
  includeMetadata : Bool
  supportCommands : Bool
  templates : StoredTemplates
  deriving DecidableEq

/-- A fully-populated `templates` object viewed as a stored one. -/
def toStoredTemplates (t : Templates) : StoredTemplates :=
  { titleTemplate := some t.titleTemplate
    metadataTemplate := some t.metadataTemplate
    textMessageTemplate := some t.textMessageTemplate
    photoTemplate := some t.photoTemplate
    documentTemplate := some t.documentTemplate
    audioTemplate := some t.audioTemplate
    voiceTemplate := some t.voiceTemplate
    videoTemplate := some t.videoTemplate
    stickerTemplate := some t.stickerTemplate
    locationTemplate := some t.locationTemplate
    unknownTemplate := some t.unknownTemplate }

/-- Source lines 299-301: `Object.assign({}, DEFAULT_SETTINGS, stored)` —
a shallow, per-top-level-key merge of the stored blob over the defaults. -/
def loadSettings (stored : StoredSettings) : MergedSettings :=
  { botToken := stored.botToken.getD DEFAULT_SETTINGS.botToken
    folderPath := stored.folderPath.getD DEFAULT_SETTINGS.folderPath
    includeMetadata := stored.includeMetadata.getD DEFAULT_SETTINGS.includeMetadata
    supportCommands := stored.supportCommands.getD DEFAULT_SETTINGS.supportCommands
    templates := stored.templates.getD (toStoredTemplates DEFAULT_SETTINGS.templates) }

/-! ## Command triggers: `setupBotCommands` (source lines 166-208)

`bot.onText(/\/help/, ...)` (and likewise `/\/status/`, `/\/notes/`) fires the
handler whenever the unanchored regex — here a literal string — matches the
inbound message text, i.e. whenever the command string occurs as a contiguous
substring anywhere in the text. -/

/-- `needle` occurs at the start of `hay`. -/
def leadsWith : List Char → List Char → Bool
  | [], _ => true
  | _ :: _, [] => false
  | a :: as, b :: bs => a = b && leadsWith as bs

/-- `needle` occurs somewhere in `hay` (the unanchored-regex test for a
literal pattern). -/
def strContainsAux (needle : List Char) : List Char → Bool
  | [] => leadsWith needle []
  | c :: rest => leadsWith needle (c :: rest) || strContainsAux needle rest

/-- Whether `bot.onText` fires `pattern`'s handler on message text `text`. -/
def matchesText (pattern text : String) : Bool :=
  strContainsAux pattern.data text.data

/-- The three registered triggers (source lines 170, 182, 188). -/
def commandTriggers : List String := ["/help", "/status", "/notes"]

/-- Modelled from the spec: the "leading token" of a message text — the text up
to the first space — which the spec says is what the triggers are matched
against. -/
def leadingTokenSpec (text : String) : String :=
  String.mk (text.data.takeWhile (fun c => c ≠ ' '))

example : matchesText "/help" "/help more" = true := by decide

example : matchesText "/help" "/helpme" = true := by decide

example : matchesText "/help" "say /help please" = true := by decide

example : matchesText "/help" "/hel p" = false := by decide

/-! ## Lemmas about the template scanner -/

lemma tryMarker_some {rest ws tail : List Char}
    (h : tryMarker rest = some (ws, tail)) :
    rest = '\x7b' :: (ws ++ '\x7d' :: '\x7d' :: tail) := by
  match rest with
  | [] => simp [tryMarker] at h
  | c :: r2 =>
    simp only [tryMarker] at h
    split at h
    · split at h
      · exact absurd h (by simp)
      · split at h
        · rename_i hc _ htake
          simp only [Option.some.injEq, Prod.mk.injEq] at h
          obtain ⟨hws, htail⟩ := h
          subst hc
          rw [← hws, ← htail]
          have hr2 : r2 = r2.takeWhile isWordChar ++
              ((r2.dropWhile isWordChar).take 2 ++ (r2.dropWhile isWordChar).drop 2) := by
            rw [List.take_append_drop, List.takeWhile_append_dropWhile]
          rw [htake] at hr2
          simpa using congrArg (List.cons '\x7b') hr2
        · exact absurd h (by simp)
    · exact absurd h (by simp)

lemma tokenizeF_detok :
    ∀ (fuel : Nat) (l : List Char), l.length ≤ fuel →
      ((tokenizeF fuel l).map detok).flatten = l := by
  intro fuel
  induction fuel with
  | zero =>
    intro l hl
    have : l = [] := List.length_eq_zero.mp (Nat.le_zero.mp hl)
    subst this
    simp [tokenizeF]
  | succ fuel ih =>
    intro l hl
    match l with
    | [] => simp [tokenizeF]
    | c :: rest =>
      have hrest : rest.length ≤ fuel := by
        simpa [Nat.succ_le_succ_iff] using hl
      simp only [tokenizeF]
      by_cases hc : c = '\x7b'
      · simp only [if_pos hc]
        rcases hm : tryMarker rest with _ | ⟨ws, tail⟩
        · simp [detok, ih rest hrest]
        · have heq := tryMarker_some hm
          have htail : tail.length ≤ fuel := by
            have : rest.length = ws.length + tail.length + 3 := by
              simp [heq]; omega
            omega
          simp [detok, ih tail htail, hc, heq]
      · simp [if_neg hc, detok, ih rest hrest]

/-- The scan is lossless: the verbatim texts of the tokens concatenate back to
the original character list. -/
lemma tokenize_detok (l : List Char) :
    ((tokenize l).map detok).flatten = l :=
  tokenizeF_detok l.length l le_rfl

/-- A concrete stand-in for the engine's stringification of an inherited
`Object.prototype` member (a real engine renders e.g.
`function Object() \x7b [native code] \x7d` for `constructor`; the exact text is
host-dependent — what matters is that the inherited value is substituted at
all). -/
def nativeRender (k : String) : String := "[inherited " ++ k ++ "]"

/-- C2 counterexample: the identifier `constructor` is absent from the (empty)
variable mapping, yet the marker is **not** left unchanged:
`variables["constructor"]` is a JS bracket access on a plain object literal,
which falls back to the prototype chain and finds the truthy inherited
`Object.prototype.constructor`; the `|| match` test therefore passes and
`replace` substitutes the member's stringification for the marker. -/
theorem processTemplate_proto_substituted :
    processTemplate nativeRender "\x7b\x7bconstructor\x7d\x7d" []
        = "[inherited constructor]" ∧
    processTemplate nativeRender "\x7b\x7bconstructor\x7d\x7d" []
        ≠ "\x7b\x7bconstructor\x7d\x7d" := by decide

/-- C2 (amended): for every template `T` and variable mapping `V`, the
template splits into literal and marker tokens whose verbatim texts
concatenate to `T`, and the rendered output is the token-wise rendering —
total, so rendering never errors; every marker token whose identifier is
absent from `V` **and is not an `Object.prototype` member name** renders to
its own verbatim text, character for character (literal pass-through, never a
removal); a marker whose identifier is absent from `V` but names an
`Object.prototype` member (`constructor`, `toString`, `valueOf`,
`hasOwnProperty`, …) is instead replaced by the engine's stringification of
the truthy inherited member. -/
theorem processTemplate_absent_passthrough (pr : String → String) (T : String)
    (V : List (String × String)) :
    T.data = ((tokenize T.data).map detok).flatten ∧
    (processTemplate pr T V).data
      = ((tokenize T.data).map (renderTok pr V)).flatten ∧
    (∀ ws, Tok.marker ws ∈ tokenize T.data →
      lookupVar (String.mk ws) V = none → String.mk ws ∉ protoKeys →
        renderTok pr V (Tok.marker ws) = detok (Tok.marker ws)) ∧
    (∀ ws, Tok.marker ws ∈ tokenize T.data →
      lookupVar (String.mk ws) V = none → String.mk ws ∈ protoKeys →
        renderTok pr V (Tok.marker ws) = (pr (String.mk ws)).data) := by
  refine ⟨(tokenize_detok T.data).symm, rfl, ?_, ?_⟩
  · intro ws _ hnone hnp
    simp [renderTok, hnone, hnp]
  · intro ws _ hnone hp
    simp [renderTok, hnone, hp]

/-- C7 counterexample: the identifier `text` is present in the variable mapping
with the (empty-string) entry `""`, yet the marker occurrence is not replaced
by that entry — the output keeps the marker, and differs from the entry. -/
theorem processTemplate_empty_entry_kept :
    processTemplate (fun _ => "") "\x7b\x7btext\x7d\x7d" [("text", "")]
        = "\x7b\x7btext\x7d\x7d" ∧
    processTemplate (fun _ => "") "\x7b\x7btext\x7d\x7d" [("text", "")] ≠ "" := by
  decide

/-- C7 (amended): a marker occurrence whose identifier is present in `V` is
replaced by `V`'s entry when that entry is non-empty; an entry equal to the
empty string is falsy in the `entry || match` fallback, so that marker is left
unchanged, exactly as an absent identifier would be. -/
theorem processTemplate_present_replaced (pr : String → String) (T : String)
    (V : List (String × String)) :
    T.data = ((tokenize T.data).map detok).flatten ∧
    (processTemplate pr T V).data
      = ((tokenize T.data).map (renderTok pr V)).flatten ∧
    (∀ ws v, Tok.marker ws ∈ tokenize T.data →
      lookupVar (String.mk ws) V = some v → v ≠ "" →
        renderTok pr V (Tok.marker ws) = v.data) ∧
    (∀ ws, Tok.marker ws ∈ tokenize T.data →
      lookupVar (String.mk ws) V = some "" →
        renderTok pr V (Tok.marker ws) = detok (Tok.marker ws)) := by
  refine ⟨(tokenize_detok T.data).symm, rfl, ?_, ?_⟩
  · intro ws v _ hsome hv
    simp [renderTok, hsome, hv]
  · intro ws _ hsome
    simp [renderTok, hsome]

/-! ## C1: classification follows the fixed priority order -/

/-- Whether a given content field of the message is populated, in the sense
the dispatch chain tests it: truthy — a string field counts only when present
and non-empty, an object or array field whenever present. -/
def populated (m : TelegramMessage) : MsgKind → Bool
  | .text => truthyStr m.text
  | .photo => m.photo.isSome
  | .document => m.document.isSome
  | .audio => m.audio.isSome
  | .voice => m.voice.isSome
  | .video => m.video.isSome
  | .sticker => m.sticker.isSome
  | .location => m.location.isSome
  | .unknown => false

/-- The fixed priority order of the dispatch chain. -/
def kindOrder : List MsgKind :=
  [.text, .photo, .document, .audio, .voice, .video, .sticker, .location]

/-- C1: for every incoming message, classification returns the kind of the
populated content field that is earliest in the fixed priority order
text, photo, document, audio, voice, video, sticker, location — in particular
a message with exactly one populated field gets that field's kind, one with
several gets the earliest, and one with none is classified `unknown`. -/
theorem classify_priority (m : TelegramMessage) :
    classify m = (kindOrder.find? (populated m)).getD .unknown := by
  unfold classify
  simp only [kindOrder]
  split_ifs <;> simp_all [List.find?, populated]

/-! ## C3: note path and body of the worked example -/

/-- The example message `{id:42, date:1710000000, chat:{id:1,type:"private"},
text:"hello"}`. -/
def msg42 : TelegramMessage :=
  { message_id := 42
    fromUser := none
    chat := { id := 1, type := "private", title := none, username := none }
    date := 1710000000
    text := some "hello"
    caption := none, photo := none, document := none, audio := none
    voice := none, video := none, sticker := none, location := none }

/-- Default settings with `includeMetadata := false`, as in the example. -/
def defaultNoMeta : TelegramSyncSettings :=
  { DEFAULT_SETTINGS with includeMetadata := false }

/-- C3 counterexample: 1710000000 seconds is 2024-03-09T16:00:00 UTC — 57600
seconds, exactly 16 hours, into the day — so the rendered path for the example
message is `Telegram/2024-03-09T16-00-00-42.md`, not the claimed
`Telegram/2024-03-09T16-40-00-42.md`. -/
theorem msg42_path_not_sixteen_forty :
    (processMessage (fun _ => "") (fun _ => "") defaultNoMeta msg42).1
        = "Telegram/2024-03-09T16-00-00-42.md" ∧
    (processMessage (fun _ => "") (fun _ => "") defaultNoMeta msg42).1
        ≠ "Telegram/2024-03-09T16-40-00-42.md" := by decide

/-- C3 (amended): for every message the rendered note's file path is
`folderPath ++ "/" ++` (the UTC ISO-8601 rendering of `date * 1000`
milliseconds with `:` and `.` replaced by `-`, truncated to 19 characters)
`++ "-" ++ message id ++ ".md"`; and the example message
`{id:42, date:1710000000, chat:{id:1,type:"private"}, text:"hello"}` with the
default templates and `includeMetadata := false` yields body
`"## Message\n\nhello"` and path `"Telegram/2024-03-09T16-00-00-42.md"`. -/
theorem processMessage_path_format :
    (∀ (pr : String → String) (lr : Nat → String) (s : TelegramSyncSettings)
        (m : TelegramMessage),
      (processMessage pr lr s m).1 =
        s.folderPath ++ "/" ++ formattedDate m.date ++ "-" ++
          toString m.message_id ++ ".md") ∧
    processMessage (fun _ => "") (fun _ => "") defaultNoMeta msg42
      = ("Telegram/2024-03-09T16-00-00-42.md", "## Message\n\nhello") := by
  exact ⟨fun pr lr s m => rfl, by decide⟩

/-! ## C4 and C5: lifecycle transitions under close failure -/

/-- A running session owning the single live connection `0`. -/
def runningState : SysState :=
  { bot := some 0, live := [0], nextId := 1, notices := [] }

/-- Settings with a non-empty bot token. -/
def tokenSettings : TelegramSyncSettings :=
  { DEFAULT_SETTINGS with botToken := "token" }

/-- C4 counterexample: in the `Running` state, when `stopPolling()` rejects,
the `catch` block reports the error but skips `this.bot = null`, so the
session does **not** transition to `Stopped` — it is still `Running`. -/
theorem stopBot_close_failure_still_running :
    sessionState runningState = .Running ∧
    sessionState (stopBot (some "network error") runningState) ≠ .Stopped ∧
    (stopBot (some "network error") runningState).notices
      = ["Error stopping bot: network error"] := by decide

/-- C4 (amended): when `stop()` is called in the `Running` state and the
transport's close fails, the failure is reported (a notice is emitted) but the
session **remains** `Running` with the same connection handle; only a
successful close clears the handle and transitions to `Stopped`. -/
theorem stopBot_close_failure_keeps_handle (s : SysState) (c : Nat) (e : String)
    (h : s.bot = some c) :
    (stopBot (some e) s).bot = some c ∧
    sessionState (stopBot (some e) s) = .Running ∧
    (stopBot (some e) s).notices = s.notices ++ ["Error stopping bot: " ++ e] ∧
    (stopBot none s).bot = none ∧
    sessionState (stopBot none s) = .Stopped := by
  simp [stopBot, h, sessionState]

/-- Witness for `stopBot_close_failure_keeps_handle` at the concrete running
state. -/
theorem stopBot_close_failure_keeps_handle_w :
    (stopBot (some "e") runningState).bot = some 0 ∧
    sessionState (stopBot (some "e") runningState) = .Running ∧
    (stopBot (some "e") runningState).notices = [] ++ ["Error stopping bot: " ++ "e"] ∧
    (stopBot none runningState).bot = none ∧
    sessionState (stopBot none runningState) = .Stopped :=
  stopBot_close_failure_keeps_handle runningState 0 "e" rfl

/-- C5 counterexample: `start()` while `Running`, when the close of the prior
connection fails, never passes through `Stopped` (the `bot` field survives the
failed `stopBot`) and ends with **two** live connections — the unclosed old one
and the newly opened one. -/
theorem startBot_close_failure_two_connections :
    sessionState runningState = .Running ∧
    sessionState (stopBot (some "close failed") runningState) = .Running ∧
    (startBot (some "close failed") none tokenSettings runningState).live.length = 2 := by
  decide

/-- C5 (amended): `start()` while `Running` first stops the prior connection;
provided the transport close succeeds (and the token is non-empty and folder
provisioning succeeds), the result holds exactly one active connection and the
internal transition sequence is `Running→Stopped→Running`.  When the close
fails, the prior connection is never closed and stays live next to the new
one. -/
theorem startBot_single_connection (s : SysState) (b : Nat)
    (st : TelegramSyncSettings) (hb : s.bot = some b) (hl : s.live = [b])
    (ht : st.botToken ≠ "") :
    (startBot none none st s).live = [s.nextId] ∧
    sessionState s = .Running ∧
    sessionState (stopBot none s) = .Stopped ∧
    sessionState (startBot none none st s) = .Running := by
  simp [startBot, stopBot, hb, hl, ht, sessionState]

/-- Witness for `startBot_single_connection` at the concrete running state. -/
theorem startBot_single_connection_w :
    (startBot none none tokenSettings runningState).live = [runningState.nextId] ∧
    sessionState runningState = .Running ∧
    sessionState (stopBot none runningState) = .Stopped ∧
    sessionState (startBot none none tokenSettings runningState) = .Running :=
  startBot_single_connection runningState 0 tokenSettings rfl rfl (by decide)

/-! ## C6: folder provisioning is idempotent -/

/-- Existing vault entries survive a provisioning walk. -/
lemma ensureGo_mem {x : String} :
    ∀ (segs : List String) (vault : List String) (cur : String),
      x ∈ vault → x ∈ (ensureGo vault cur segs).1 := by
  intro segs
  induction segs with
  | nil => intro vault cur hx; simpa [ensureGo] using hx
  | cons f rest ih =>
    intro vault cur hx
    simp only [ensureGo]
    apply ih
    split
    · exact hx
    · exact List.mem_append_left _ hx

/-- After a provisioning walk, every prefix the walk visited exists; rerunning
the same walk on the resulting vault finds every prefix present, changes
nothing and creates nothing. -/
lemma ensureGo_idem :
    ∀ (segs : List String) (vault : List String) (cur : String),
      ensureGo (ensureGo vault cur segs).1 cur segs
        = ((ensureGo vault cur segs).1, []) := by
  intro segs
  induction segs with
  | nil => intro vault cur; simp [ensureGo]
  | cons f rest ih =>
    intro vault cur
    have hmem : cur ++ f ∈
        (ensureGo (if cur ++ f ∈ vault then vault else vault ++ [cur ++ f])
          (cur ++ f ++ "/") rest).1 := by
      apply ensureGo_mem
      split
      · assumption
      · exact List.mem_append_right _ (List.mem_singleton.mpr rfl)
    have h2 := ih (if cur ++ f ∈ vault then vault else vault ++ [cur ++ f])
      (cur ++ f ++ "/")
    simp only [ensureGo]
    rw [if_pos hmem, if_pos hmem, h2]
    simp

/-- C6: provisioning the same path twice — the vault now reporting the
directories created by the first call as existing — performs zero
directory-creation calls the second time, succeeds, and leaves the vault
unchanged (idempotence). -/
theorem ensureFolderExists_idempotent (vault : List String) (path : String) :
    ensureFolderExists (ensureFolderExists vault path).1 path
      = ((ensureFolderExists vault path).1, []) :=
  ensureGo_idem _ vault ""

/-! ## C8: the settings merge is shallow -/

/-- A stored blob whose `templates` object carries only a custom title. -/
def storedPartial : StoredSettings :=
  { botToken := some "tok"
    folderPath := none
    includeMetadata := none
    supportCommands := none
    templates := some
      { titleTemplate := some "CUSTOM"
        metadataTemplate := none, textMessageTemplate := none
        photoTemplate := none, documentTemplate := none, audioTemplate := none
        voiceTemplate := none, videoTemplate := none, stickerTemplate := none
        locationTemplate := none, unknownTemplate := none } }

/-- C8 counterexample: `Object.assign` merges one level deep, so a stored
`templates` object replaces the default `TemplateSet` wholesale — a template
role missing from the stored `templates` (here `textMessageTemplate`) does
**not** receive its default value; it is simply absent after the load. -/
theorem loadSettings_nested_role_not_defaulted :
    (loadSettings storedPartial).templates.textMessageTemplate = none ∧
    (loadSettings storedPartial).templates.textMessageTemplate
      ≠ some DEFAULT_SETTINGS.templates.textMessageTemplate := by decide

/-- C8 (amended): loading merges the stored data over the defaults one level
deep: every **top-level** settings field absent from the stored data receives
its default and every top-level field present keeps the stored value, while
the `templates` object is taken wholesale — the stored `TemplateSet` replaces
the default one entirely, so an individual template role missing from a stored
`TemplateSet` stays absent instead of receiving its default. -/
theorem loadSettings_shallow_merge (stored : StoredSettings) :
    (stored.botToken = none →
      (loadSettings stored).botToken = DEFAULT_SETTINGS.botToken) ∧
    (∀ v, stored.botToken = some v → (loadSettings stored).botToken = v) ∧
    (stored.folderPath = none →
      (loadSettings stored).folderPath = DEFAULT_SETTINGS.folderPath) ∧
    (∀ v, stored.folderPath = some v → (loadSettings stored).folderPath = v) ∧
    (stored.includeMetadata = none →
      (loadSettings stored).includeMetadata = DEFAULT_SETTINGS.includeMetadata) ∧
    (∀ v, stored.includeMetadata = some v →
      (loadSettings stored).includeMetadata = v) ∧
    (stored.supportCommands = none →
      (loadSettings stored).supportCommands = DEFAULT_SETTINGS.supportCommands) ∧
    (∀ v, stored.supportCommands = some v →
      (loadSettings stored).supportCommands = v) ∧
    (stored.templates = none →
      (loadSettings stored).templates
        = toStoredTemplates DEFAULT_SETTINGS.templates) ∧
    (∀ t, stored.templates = some t → (loadSettings stored).templates = t) := by
  refine ⟨?_, ?_, ?_, ?_, ?_, ?_, ?_, ?_, ?_, ?_⟩ <;>
    first
      | (intro h; simp [loadSettings, h])
      | (intro v h; simp [loadSettings, h])

/-! ## C9: command triggers are unanchored substring matches -/

/-- C9 counterexample: the unanchored regex `/\/help/` fires on `"/helpme"`,
whose leading token is `"/helpme"`, not `"/help"`, and on
`"tell me /help"`, where the command string appears only later in the text —
both cases the claim says must not fire. -/
theorem command_match_not_leading_token :
    matchesText "/help" "/helpme" = true ∧
    leadingTokenSpec "/helpme" ≠ "/help" ∧
    matchesText "/help" "tell me /help" = true ∧
    leadingTokenSpec "tell me /help" ≠ "/help" := by decide

/-- A prefix test succeeds exactly when the haystack extends the needle. -/
lemma leadsWith_iff (n : List Char) :
    ∀ h : List Char, leadsWith n h = true ↔ ∃ t, h = n ++ t := by
  induction n with
  | nil => intro h; simp [leadsWith]
  | cons a as ih =>
    intro h
    match h with
    | [] => simp [leadsWith]
    | b :: bs =>
      simp only [leadsWith, Bool.and_eq_true, decide_eq_true_eq, ih bs,
        List.cons_append, List.cons.injEq]
      constructor
      · rintro ⟨hab, t, ht⟩; exact ⟨t, hab.symm, ht⟩
      · rintro ⟨t, hab, ht⟩; exact ⟨hab.symm, t, ht⟩

/-- The scan succeeds exactly when the needle occurs contiguously somewhere. -/
lemma strContainsAux_iff (n : List Char) :
    ∀ h : List Char, strContainsAux n h = true ↔ ∃ a b, h = a ++ n ++ b := by
  intro h
  induction h with
  | nil =>
    simp only [strContainsAux, leadsWith_iff]
    constructor
    · rintro ⟨t, ht⟩; exact ⟨[], t, ht⟩
    · rintro ⟨a, b, hab⟩
      obtain ⟨han, hb⟩ := List.append_eq_nil.mp hab.symm
      obtain ⟨ha, hn⟩ := List.append_eq_nil.mp han
      exact ⟨[], by simp [hn]⟩
  | cons c rest ih =>
    simp only [strContainsAux, Bool.or_eq_true, leadsWith_iff, ih]
    constructor
    · rintro (⟨t, ht⟩ | ⟨a, b, hab⟩)
      · exact ⟨[], t, by simpa using ht⟩
      · exact ⟨c :: a, b, by simp [hab]⟩
    · rintro ⟨a, b, hab⟩
      match a with
      | [] => exact Or.inl ⟨b, by simpa using hab⟩
      | c' :: a' =>
        right
        refine ⟨a', b, ?_⟩
        obtain ⟨h1, h2⟩ : c = c' ∧ rest = a' ++ n ++ b := by simpa using hab
        exact h2

/-- C9 (amended): each of the three triggers `/help`, `/status`, `/notes` is
registered as an unanchored literal regex, so it fires exactly when the
command string occurs as a contiguous, case-sensitive substring **anywhere**
in the inbound message text — in particular also when it appears later in the
text or as a prefix of a longer leading token. -/
theorem command_fires_iff_substring (cmd : String)
    (_hc : cmd ∈ commandTriggers) (t : String) :
    matchesText cmd t = true ↔ ∃ a b, t.data = a ++ cmd.data ++ b :=
  strContainsAux_iff cmd.data t.data

/-- Witness for `command_fires_iff_substring`: `/help` fires on the message
text `"say /help"`. -/
theorem command_fires_iff_substring_w :
    matchesText "/help" "say /help" = true :=
  (command_fires_iff_substring "/help" (by decide) "say /help").mpr
    ⟨"say ".data, [], by decide⟩

/-! ## C10: empty-string content fields behave as absent -/

/-- C10: throughout the pipeline a string-valued content field that is present
but equal to the empty string behaves exactly as if it were absent: an
empty-string `text` is not classified as text (classification and the whole
rendered note are identical to the absent-`text` message), and an empty-string
caption, filename, title, or emoji produces the same note as the absent field
— i.e. the default literal (`"No caption"`, `"Unknown"`, `"No emoji"`) instead
of the empty value. -/
theorem empty_string_fields_as_absent (pr : String → String) (lr : Nat → String)
    (st : TelegramSyncSettings) (m : TelegramMessage) :
    classify { m with text := some "" } = classify { m with text := none } ∧
    processMessage pr lr st { m with text := some "" }
      = processMessage pr lr st { m with text := none } ∧
    processMessage pr lr st { m with caption := some "" }
      = processMessage pr lr st { m with caption := none } ∧
    processMessage pr lr st { m with document := some { file_name := some "" } }
      = processMessage pr lr st { m with document := some { file_name := none } } ∧
    processMessage pr lr st { m with audio := some { title := some "", duration := none } }
      = processMessage pr lr st { m with audio := some { title := none, duration := none } } ∧
    processMessage pr lr st { m with sticker := some { emoji := some "" } }
      = processMessage pr lr st { m with sticker := some { emoji := none } } := by
  refine ⟨?_, ?_, ?_, ?_, ?_, ?_⟩ <;>
    simp [classify, processMessage, contentBody, truthyStr, jsOr, fromName, chatName]
